import Mathlib

/-!
Verification development for the Dataset Integrity & Quality Pipeline.

Shallow embedding of the Python sources `src/quality_checker.py`,
`src/encryption.py`, `src/data_manager.py` and `src/data_validator.py`.
Machine floats of the source are modelled by exact rationals (`ℚ`); Python
exceptions are modelled by `Except PyErr`; byte strings by `List ℕ`.
-/

/-- Python exceptions that can arise in the embedded code.  `valueError`
keeps the wrapped cause (the source formats the cause into the message
string; the model keeps the cause itself).  `authenticationError` stands for
`cryptography.fernet.InvalidToken` (the spec's `AuthenticationError`);
`weakInputError` is the spec's `WeakInputError` taxonomy entry, declared here
so that statements about it can be written (the source never raises it). -/
inductive PyErr where
  | attributeError
  | zeroDivisionError
  | keyError
  | authenticationError
  | weakInputError
  | valueError (cause : PyErr)
deriving DecidableEq, Repr

/-! ## Tabular data model (pandas DataFrame) -/

/-- The pandas dtypes the source dispatches on: numeric (`int64`, `float64`)
and `object` (textual/categorical). -/
inductive Dtype where
  | int64
  | float64
  | object
deriving DecidableEq, Repr

/-- `df[col].dtype in ['int64', 'float64']` -/
def Dtype.isNumeric : Dtype → Bool
  | .int64 => true
  | .float64 => true
  | .object => false

/-- `str(dtype)` as pandas prints it. -/
def Dtype.asString : Dtype → String
  | .int64 => "int64"
  | .float64 => "float64"
  | .object => "object"

/-- One cell of a table: a missing value (NaN/None), a numeric value
(floats modelled exactly as rationals), or a string. -/
inductive Cell where
  | null
  | num (q : ℚ)
  | str (s : String)
deriving DecidableEq, Repr

/-- `pd.isnull` on one cell. -/
def Cell.isNull : Cell → Bool
  | .null => true
  | _ => false

/-- A named, homogeneously typed column. -/
structure Column where
  name : String
  dtype : Dtype
  cells : List Cell
deriving DecidableEq, Repr

/-- A pandas DataFrame: ordered columns plus the row count (`len(df)`,
`df.shape[0]`). -/
structure DataFrame where
  nrows : ℕ
  cols : List Column
deriving DecidableEq, Repr

/-- Well-formedness: every column holds exactly `nrows` cells (pandas keeps
row count uniform across columns). -/
def DataFrame.Uniform (df : DataFrame) : Prop :=
  ∀ c ∈ df.cols, c.cells.length = df.nrows

instance (df : DataFrame) : Decidable df.Uniform :=
  inferInstanceAs (Decidable (∀ c ∈ df.cols, c.cells.length = df.nrows))

/-- `df.shape[1]`, the column count. -/
def DataFrame.ncols (df : DataFrame) : ℕ := df.cols.length

/-- `df.columns` as a list of names. -/
def DataFrame.colNames (df : DataFrame) : List String := df.cols.map (·.name)

/-- `df.empty`: true when either axis has length zero. -/
def DataFrame.isEmptyDf (df : DataFrame) : Bool :=
  df.nrows == 0 || df.cols.isEmpty

/-- The non-missing numeric values of a column, in order (pandas skips NaN
in `quantile`, `mean`, `std`). -/
def numVals (cells : List Cell) : List ℚ :=
  cells.filterMap (fun c => match c with
    | .num q => some q
    | _ => none)

/-- `df.isnull().sum().sum()`: total count of missing cells. -/
def DataFrame.nullCount (df : DataFrame) : ℕ :=
  (df.cols.map (fun c => c.cells.countP Cell.isNull)).sum

/-! ## QualityChecker (src/quality_checker.py) -/

namespace QualityChecker

/-- The six quality metrics, in the declaration order of the
`quality_scores` dict built by `evaluate_quality`. -/
inductive Metric where
  | completeness
  | consistency
  | accuracy
  | timeliness
  | format_validity
  | schema_compliance
deriving DecidableEq, Repr

/-- Metric declaration order (Python dict insertion order of
`quality_scores`, lines 20-27 of `quality_checker.py`). -/
def metricOrder : List Metric :=
  [.completeness, .consistency, .accuracy, .timeliness,
   .format_validity, .schema_compliance]

/-- The six detailed scores of a report, one field per metric. -/
structure QualityScores where
  completeness : ℚ
  consistency : ℚ
  accuracy : ℚ
  timeliness : ℚ
  format_validity : ℚ
  schema_compliance : ℚ
deriving DecidableEq, Repr

/-- `quality_scores[metric]` lookup. -/
def QualityScores.get (s : QualityScores) : Metric → ℚ
  | .completeness => s.completeness
  | .consistency => s.consistency
  | .accuracy => s.accuracy
  | .timeliness => s.timeliness
  | .format_validity => s.format_validity
  | .schema_compliance => s.schema_compliance

/-- The fixed `weights` dict of `evaluate_quality` (lines 30-37). -/
def weights : Metric → ℚ
  | .completeness => 3/10
  | .consistency => 2/10
  | .accuracy => 2/10
  | .timeliness => 1/10
  | .format_validity => 1/10
  | .schema_compliance => 1/10

/-- `self.quality_thresholds`: the four entries of the dict built in
`__init__` (completeness 0.9, consistency 0.95, accuracy 0.95,
timeliness 30); the remaining metrics are absent. -/
def quality_thresholds : Metric → Option ℚ
  | .completeness => some (9/10)
  | .consistency => some (19/20)
  | .accuracy => some (19/20)
  | .timeliness => some 30
  | _ => none

/-- `self.quality_thresholds.get(metric, 0.9)` (line 135). -/
def threshold (m : Metric) : ℚ := (quality_thresholds m).getD (9/10)

/-- The fixed advisory string appended for each metric
(`_generate_recommendations`, lines 130-161). -/
def advisory : Metric → String
  | .completeness => "Consider handling missing values or collecting more complete data"
  | .consistency => "Review and handle outliers in the dataset"
  | .accuracy => "Validate extreme values and consider data cleaning"
  | .timeliness => "Update the dataset with more recent data"
  | .format_validity => "Review data types and format specifications"
  | .schema_compliance => "Ensure data follows the expected schema"

/-- `_generate_recommendations`: walk the scores dict in declaration order
and append the metric's fixed advisory whenever its score is below
`quality_thresholds.get(metric, 0.9)`. -/
def generate_recommendations (s : QualityScores) : List String :=
  metricOrder.filterMap (fun m =>
    if s.get m < threshold m then some (advisory m) else none)

/-- `_check_completeness`:
`1 - df.isnull().sum().sum() / (df.shape[0] * df.shape[1])`.
(Lean division is total with `x / 0 = 0`; on an empty table Python's numpy
division yields NaN instead — the theorems below assume a nonempty table.) -/
def check_completeness (df : DataFrame) : ℚ :=
  1 - (df.nullCount : ℚ) / ((df.nrows : ℚ) * (df.ncols : ℚ))

/-- `df[col].quantile(q)` with pandas' default linear interpolation over the
sorted non-missing values: at virtual index `q*(n-1)` interpolate between
the two neighbouring order statistics.  (Empty input gives NaN in pandas;
the model returns 0 there, and no theorem depends on that value: when a
column has no numeric values it also produces no countable outliers.) -/
def quantile (xs : List ℚ) (q : ℚ) : ℚ :=
  let s := List.insertionSort (· ≤ ·) xs
  if s.isEmpty then 0
  else
    let pos : ℚ := q * ((s.length : ℚ) - 1)
    let i : ℕ := (Int.floor pos).toNat
    let lo := s.getD i 0
    let hi := s.getD (i + 1) lo
    lo + (pos - (i : ℚ)) * (hi - lo)

/-- The row filter `(df[col] < lo) | (df[col] > hi)` on one cell.  Missing
cells never satisfy a float comparison (NaN compares false), so they are
never selected. -/
def isOutlierCell (lo hi : ℚ) : Cell → Bool
  | .num q => decide (q < lo ∨ hi < q)
  | _ => false

/-- `len(df[(df[col] < lo) | (df[col] > hi)])`: rows whose cell in the
column lies outside `[lo, hi]`. -/
def countOutliers (cells : List Cell) (lo hi : ℚ) : ℕ :=
  cells.countP (isOutlierCell lo hi)

/-- The per-numeric-column consistency score of `_check_consistency`:
IQR bounds `[Q1 - 1.5*IQR, Q3 + 1.5*IQR]` over the column, then
`1 - outliers / len(df)`. -/
def columnConsistency (df : DataFrame) (c : Column) : ℚ :=
  let q1 := quantile (numVals c.cells) (1/4)
  let q3 := quantile (numVals c.cells) (3/4)
  let iqr := q3 - q1
  1 - (countOutliers c.cells (q1 - 3/2 * iqr) (q3 + 3/2 * iqr) : ℚ) / (df.nrows : ℚ)

/-- `_check_consistency`: the per-column scores for the numeric columns;
their unweighted mean, or 1.0 when there is no numeric column
(`np.mean(consistency_scores) if consistency_scores else 1.0`). -/
def check_consistency (df : DataFrame) : ℚ :=
  let scores := df.cols.filterMap (fun c =>
    if c.dtype.isNumeric then some (columnConsistency df c) else none)
  if scores.isEmpty then 1 else scores.sum / (scores.length : ℚ)

/-- The outlier count of `_check_accuracy` for one column:
`len(df[abs(df[col] - mean) > 3 * std])` with pandas `mean`/`std` over the
non-missing values and `std` using ddof = 1.  With fewer than two values the
sample std is NaN and every comparison is false (0 outliers).  The test
`|x - mean| > 3*std` is stated equivalently over exact rationals as
`(x - mean)^2 > 9 * variance` (both sides of the original are nonnegative). -/
def accuracyOutliers (cells : List Cell) : ℕ :=
  let vals := numVals cells
  let n := vals.length
  if n ≤ 1 then 0
  else
    let m := vals.sum / (n : ℚ)
    let varS := (vals.map (fun x => (x - m) ^ 2)).sum / ((n : ℚ) - 1)
    cells.countP (fun c => match c with
      | .num x => decide ((x - m) ^ 2 > 9 * varS)
      | _ => false)

/-- `_check_accuracy`: per numeric column `1 - outliers / len(df)`, averaged
over the numeric columns, 1.0 when there is none. -/
def check_accuracy (df : DataFrame) : ℚ :=
  let scores := df.cols.filterMap (fun c =>
    if c.dtype.isNumeric then
      some (1 - (accuracyOutliers c.cells : ℚ) / (df.nrows : ℚ))
    else none)
  if scores.isEmpty then 1 else scores.sum / (scores.length : ℚ)

/-- The declared metadata consumed by the quality checker: the optional
`last_updated` ISO-8601 timestamp (modelled by its epoch value in seconds —
invalid timestamp strings, which make `datetime.fromisoformat` raise, are
outside the model) and the optional `schema` mapping of expected column
names to dtype strings (a Python dict: ordered, keys unique). -/
structure QMeta where
  last_updated : Option ℤ
  schema : Option (List (String × String))
deriving DecidableEq, Repr

/-- `_check_timeliness` with `datetime.now()` passed explicitly (`now`, in
epoch seconds): `days_old = (now - last_updated).days` (timedelta `.days`
floors, also for negative spans, hence `Int.fdiv`), score
`max(0, 1 - days_old / 30)`; 0.5 when no timestamp is present. -/
def check_timeliness (md : QMeta) (now : ℤ) : ℚ :=
  match md.last_updated with
  | some t =>
    let days_old : ℤ := (now - t).fdiv 86400
    max 0 (1 - (days_old : ℚ) / 30)
  | none => 1/2

/-- `_check_format_validity`: for each numeric column,
`pd.to_numeric(df[col], errors='coerce')` is the identity, so the invalid
count is the column's missing-cell count; score `1 - invalid / len(df)`,
averaged over numeric columns, 1.0 when there is none.  (The computed but
unused `categorical_cols` of the source is omitted; the `except` branch
returning 0.0 is unreachable for well-typed frames.) -/
def check_format_validity (df : DataFrame) : ℚ :=
  let scores := df.cols.filterMap (fun c =>
    if c.dtype.isNumeric then
      some (1 - (c.cells.countP Cell.isNull : ℚ) / (df.nrows : ℚ))
    else none)
  if scores.isEmpty then 1 else scores.sum / (scores.length : ℚ)

/-- `_check_schema_compliance`: 0.5 when no schema is declared; otherwise
the fraction of expected columns whose actual dtype string matches exactly.
An empty declared schema makes the Python `matching_columns /
len(expected_schema)` raise `ZeroDivisionError`, modelled as the error
case. -/
def check_schema_compliance (df : DataFrame) (md : QMeta) : Except PyErr ℚ :=
  match md.schema with
  | none => .ok (1/2)
  | some expected =>
    if expected.isEmpty then .error .zeroDivisionError
    else
      let matching := expected.countP (fun kv =>
        match df.cols.find? (fun c => c.name == kv.1) with
        | some c => c.dtype.asString == kv.2
        | none => false)
      .ok ((matching : ℚ) / (expected.length : ℚ))

/-- A returned quality report (`evaluate_quality`, lines 44-48). -/
structure QualityReport where
  overall_score : ℚ
  detailed_scores : QualityScores
  recommendations : List String
deriving DecidableEq, Repr

/-- The scoring pipeline of `evaluate_quality` (lines 20-48) over an
already-loaded table — the spec's `QualityScorer.evaluate(table,
declared_metadata)`.  Builds the six detailed scores, the weighted
`overall_score` (the source's `sum(score * weights[metric] for metric,
score in quality_scores.items())`, expanded in dict order), and the
recommendations. -/
def computeQualityReport (df : DataFrame) (md : QMeta) (now : ℤ) :
    Except PyErr QualityReport := do
  let schemaScore ← check_schema_compliance df md
  let s : QualityScores :=
    { completeness := check_completeness df
      consistency := check_consistency df
      accuracy := check_accuracy df
      timeliness := check_timeliness md now
      format_validity := check_format_validity df
      schema_compliance := schemaScore }
  let overall :=
    s.completeness * weights .completeness +
    s.consistency * weights .consistency +
    s.accuracy * weights .accuracy +
    s.timeliness * weights .timeliness +
    s.format_validity * weights .format_validity +
    s.schema_compliance * weights .schema_compliance
  .ok { overall_score := overall
        detailed_scores := s
        recommendations := generate_recommendations s }

/-- `self._load_dataset(file_path)` as called by `evaluate_quality`
(line 18): class `QualityChecker` declares only `__init__`,
`evaluate_quality`, `_check_completeness`, `_check_consistency`,
`_check_accuracy`, `_check_timeliness`, `_check_format_validity`,
`_check_schema_compliance` and `_generate_recommendations`, has no base
class, and defines no `_load_dataset` (that method exists only on the
unrelated class `DatasetAnalytics` in `analytics.py`); Python attribute
lookup therefore raises `AttributeError`. -/
def loadDataset (filePath : String) : Except PyErr DataFrame :=
  .error .attributeError

/-- `evaluate_quality(file_path, metadata)`: the `try` body loads the
dataset and scores it; the catch-all `except Exception` re-raises any
failure as a `ValueError` wrapping the cause. -/
def evaluate_quality (filePath : String) (md : QMeta) (now : ℤ) :
    Except PyErr QualityReport :=
  match (do
      let df ← loadDataset filePath
      computeQualityReport df md now : Except PyErr QualityReport) with
  | .ok r => .ok r
  | .error e => .error (.valueError e)

end QualityChecker

/-! ## DataEncryption (src/encryption.py) -/

namespace DataEncryption

/-- The value returned by `generate_key`:
`base64.urlsafe_b64encode(PBKDF2HMAC(SHA256, length, salt,
iterations).derive(password.encode()))`.  Idealised model: PBKDF2 is
treated as collision-free, so the derived key is represented by its inputs
together with the KDF parameters (`length` is the requested output size in
bytes; base64url encoding is injective and kept implicit). -/
structure FernetKey where
  password : String
  salt : List ℕ
  iterations : ℕ
  length : ℕ
deriving DecidableEq, Repr

/-- A byte blob as stored/fetched: either opaque plain bytes, or a
well-formed Fernet token (which in reality is a byte string embedding
version, timestamp, IV, ciphertext and HMAC tag; the model keeps the
authenticated key and the recovered plaintext). -/
inductive Blob where
  | plain (bytes : List ℕ)
  | token (key : FernetKey) (data : List ℕ)
deriving DecidableEq, Repr

/-- `Fernet(key).encrypt(data)`: an authenticated token recoverable exactly
under `key`. -/
def fernetEncrypt (key : FernetKey) (data : List ℕ) : Blob :=
  .token key data

/-- `Fernet(key).decrypt(blob)`: returns the plaintext when the token
authenticates under `key`, and raises `InvalidToken` (the spec's
`AuthenticationError`) on a key mismatch or a non-token blob. -/
def fernetDecrypt (key : FernetKey) : Blob → Except PyErr (List ℕ)
  | .token k d => if k = key then .ok d else .error .authenticationError
  | .plain _ => .error .authenticationError

/-- The mutable state of a `DataEncryption` instance: `self.salt`, set to
`os.urandom(16)` (16 fresh random bytes) in `__init__` and reassigned only
by `decrypt_file`. -/
structure EncState where
  salt : List ℕ
deriving DecidableEq, Repr

/-- `__init__`: store the 16 entropy bytes drawn from `os.urandom(16)`. -/
def init (entropy16 : List ℕ) : EncState := ⟨entropy16⟩

/-- `generate_key(password)`: straight-line code with no validation and no
raise path — it always returns the base64url encoding of the 32-byte
PBKDF2-HMAC-SHA256 output over (`password`, `self.salt`) with 100,000
iterations. -/
def generate_key (st : EncState) (password : String) : Except PyErr FernetKey :=
  .ok { password := password, salt := st.salt, iterations := 100000, length := 32 }

/-- `encrypt_file(file_path, password)` with file contents passed in place
of paths: derive the key from `self.salt`, encrypt the plaintext, and
return the ciphertext together with `self.salt`; the instance state is not
modified. -/
def encrypt_file (st : EncState) (fileData : List ℕ) (password : String) :
    Except PyErr ((Blob × List ℕ) × EncState) := do
  let key ← generate_key st password
  .ok ((fernetEncrypt key fileData, st.salt), st)

/-- `decrypt_file(encrypted_file_path, password, salt)` with file contents
in place of paths: first `self.salt = salt`, then derive the key from the
(updated) instance salt and decrypt; returns the plaintext and the updated
state. -/
def decrypt_file (st : EncState) (blob : Blob) (password : String)
    (salt : List ℕ) : Except PyErr (List ℕ × EncState) := do
  let st1 : EncState := { st with salt := salt }
  let key ← generate_key st1 password
  let data ← fernetDecrypt key blob
  .ok (data, st1)

end DataEncryption

/-! ## DataManager (src/data_manager.py) -/

/-- A dynamically typed Python value as used for metadata dicts. -/
inductive PyVal where
  | str (s : String)
  | boolV (b : Bool)
  | dict (entries : List (String × PyVal))

/-- Python truthiness of the values above (`if password:` style tests). -/
def PyVal.truthy : PyVal → Bool
  | .str s => s != ""
  | .boolV b => b
  | .dict l => !l.isEmpty

/-- Truthiness of an optional string (`Optional[str] = None` parameters). -/
def optStrTruthy : Option String → Bool
  | some s => s != ""
  | none => false

/-- Python dict lookup returning the first (unique) matching entry. -/
def dictFind (l : List (String × PyVal)) (k : String) : Option PyVal :=
  (l.find? (fun kv => kv.1 == k)).map (·.2)

/-- `d.get(k, default)`. -/
def dictGet (l : List (String × PyVal)) (k : String) (dflt : PyVal) : PyVal :=
  (dictFind l k).getD dflt

/-- `d[k] = v`: overwrite an existing entry in place, else append. -/
def dictSet (l : List (String × PyVal)) (k : String) (v : PyVal) :
    List (String × PyVal) :=
  match l with
  | [] => [(k, v)]
  | kv :: rest => if kv.1 == k then (k, v) :: rest else kv :: dictSet rest k v

/-- Lowercase hex digit for a value below 16. -/
def hexDigit (n : ℕ) : Char :=
  if n < 10 then Char.ofNat (48 + n) else Char.ofNat (87 + n)

/-- `bytes.hex()`: two lowercase hex digits per byte. -/
def bytesHex (bs : List ℕ) : String :=
  String.mk (bs.flatMap (fun b => [hexDigit (b / 16), hexDigit (b % 16)]))

/-- Value of one hex digit character (0 for others; only reached on valid
hex strings in the modelled flows). -/
def hexDigitVal (c : Char) : ℕ :=
  if 48 ≤ c.toNat ∧ c.toNat ≤ 57 then c.toNat - 48
  else if 97 ≤ c.toNat ∧ c.toNat ≤ 102 then c.toNat - 87
  else 0

/-- `bytes.fromhex`: consume the characters two at a time. -/
def hexPairs : List Char → List ℕ
  | c1 :: c2 :: rest => (hexDigitVal c1 * 16 + hexDigitVal c2) :: hexPairs rest
  | _ => []

/-- `bytes.fromhex(s)`. -/
def bytesFromHex (s : String) : List ℕ := hexPairs s.toList

/-- `_calculate_file_hash`: hashlib SHA-256 over the file bytes, read in
4096-byte chunks (the chunked updates accumulate exactly the full stream),
returned as `hexdigest()`.  The digest function itself is modelled as an
abstract deterministic (and injective) map of the byte sequence; its
internals are outside the claims. -/
def sha256Hex (bs : List ℕ) : String :=
  "sha256:" ++ String.intercalate "-" (bs.map toString)

/-- `self.ipfs.add(path)['Hash']`: the external content-addressed store
(spec section 6) returns an opaque pointer for the stored blob; modelled as
a deterministic function of the content.  No claim depends on pointer
structure. -/
def ipfsAdd : DataEncryption.Blob → String
  | .plain bs => "Qm-plain-" ++ toString bs.length
  | .token _ d => "Qm-token-" ++ toString d.length

/-- `self.ipfs.add_json(obj)`: opaque pointer for a stored JSON object
(content-addressed; no claim depends on pointer structure, so the model
keeps it fully opaque). -/
def ipfsAddJson (v : PyVal) : String :=
  match v with
  | .dict l => "Qm-json-" ++ toString l.length
  | _ => "Qm-json-0"

namespace DataManager

open DataEncryption

/-- The mutable state of a `DataManager`: its `self.encryption =
DataEncryption()` instance (the IPFS connection handle is an external
collaborator and carries no modelled state). -/
structure ManagerState where
  enc : EncState
deriving DecidableEq, Repr

/-- The dict returned by `upload_dataset` (lines 37-41). -/
structure UploadResult where
  metadata_hash : String
  ipfs_hash : String
  file_hash : String
deriving DecidableEq, Repr

/-- What an upload hands to the external store, alongside the returned
dict: the blob given to `ipfs.add` and the `metadata_obj` given to
`ipfs.add_json`.  Recorded so retrieval can be composed with upload without
modelling the store itself. -/
structure UploadOutcome where
  result : UploadResult
  storedBlob : Blob
  storedMeta : PyVal

/-- `upload_dataset(file_path, metadata, password=None)` with the file
contents in place of the path.  Hashes the original plaintext first; on a
truthy password encrypts (recording `encrypted=True` and the hex salt in
the caller's metadata dict), else stores the plaintext with
`encrypted=False`; then stores `metadata_obj = {file_hash, ipfs_hash,
metadata}` as JSON. -/
def upload_dataset (dm : ManagerState) (fileData : List ℕ)
    (metadata : List (String × PyVal)) (password : Option String) :
    Except PyErr (UploadOutcome × ManagerState) := do
  let file_hash := sha256Hex fileData
  let (blob, md1, enc') ←
    if optStrTruthy password then do
      let pw := (password.getD "")
      let ((ct, salt), enc') ← encrypt_file dm.enc fileData pw
      let md := dictSet metadata "encrypted" (.boolV true)
      let md := dictSet md "salt" (.str (bytesHex salt))
      .ok (ct, md, enc')
    else
      .ok (Blob.plain fileData, dictSet metadata "encrypted" (.boolV false), dm.enc)
  let ipfs_hash := ipfsAdd blob
  let metadata_obj : PyVal := .dict
    [("file_hash", .str file_hash),
     ("ipfs_hash", .str ipfs_hash),
     ("metadata", .dict md1)]
  let metadata_hash := ipfsAddJson metadata_obj
  .ok ({ result := { metadata_hash := metadata_hash
                     ipfs_hash := ipfs_hash
                     file_hash := file_hash }
         storedBlob := blob
         storedMeta := metadata_obj },
       { dm with enc := enc' })

/-- `retrieve_dataset(metadata_hash, password=None)` with the two store
fetches passed in: `metaObj` is `self.ipfs.get_json(metadata_hash)` and
`blob` is `self.ipfs.get(metadata['ipfs_hash'])`.  The guard is the
source's `if metadata.get('encrypted', False) and password:` — the lookup
is on the top level of the fetched metadata object.  In the decrypt branch
`metadata['salt']` raises `KeyError` when absent. -/
def retrieve_dataset (dm : ManagerState) (metaObj : PyVal) (blob : Blob)
    (password : Option String) :
    Except PyErr ((Blob × PyVal) × ManagerState) := do
  let entries := match metaObj with
    | .dict l => l
    | _ => []
  if (dictGet entries "encrypted" (.boolV false)).truthy && optStrTruthy password then do
    let saltHex ← match dictFind entries "salt" with
      | some (.str s) => .ok s
      | some _ => .error .keyError
      | none => .error .keyError
    let salt := bytesFromHex saltHex
    let pw := password.getD ""
    let (data, enc') ← decrypt_file dm.enc blob pw salt
    .ok ((Blob.plain data, metaObj), { dm with enc := enc' })
  else
    .ok ((blob, metaObj), dm)

end DataManager

/-! ## DataValidator (src/data_validator.py) -/

namespace DataValidator

/-- What the pandas loaders would produce for a given file: one parse
result per supported loader (`pd.read_csv`, `pd.read_json`,
`pd.read_parquet`); `Except.error` models the loader raising. -/
structure VFile where
  asCsv : Except Unit DataFrame
  asJson : Except Unit DataFrame
  asParquet : Except Unit DataFrame
deriving Repr

/-- The metadata fields `validate_dataset` reads: `format` (`.get` with
default `''`), `required_columns` (default `[]`) and `column_types`
(default `{}`). -/
structure VMeta where
  format : Option String
  required_columns : List String
  column_types : List (String × String)
deriving DecidableEq, Repr

/-- `self.supported_formats`. -/
def supported_formats : List String := ["csv", "json", "parquet"]

/-- ASCII lowercasing of one character (Python `str.lower` restricted to
the ASCII range that format strings live in). -/
def lowerChar (c : Char) : Char :=
  if 65 ≤ c.toNat ∧ c.toNat ≤ 90 then Char.ofNat (c.toNat + 32) else c

/-- `s.lower()` over the characters of the string. -/
def pyLower (s : String) : String := String.mk (s.toList.map lowerChar)

/-- The loader selected by the format dispatch inside the `try` block. -/
def loadFor (fmt : String) (file : VFile) : Except Unit DataFrame :=
  if fmt == "csv" then file.asCsv
  else if fmt == "json" then file.asJson
  else file.asParquet

/-- `validate_dataset(file_path, metadata)` with the file's parse results
passed in place of the path.  Unsupported format → `False` before the
`try`; inside it, a loader exception, an empty table or a missing required
column → `False`; a declared column-type constraint fails the check only
when the column is present with a different dtype string; otherwise
`True`. -/
def validate_dataset (file : VFile) (md : VMeta) : Bool :=
  let file_format := pyLower (md.format.getD "")
  if !(supported_formats.contains file_format) then false
  else
    match loadFor file_format file with
    | .error _ => false
    | .ok df =>
      if df.isEmptyDf then false
      else if !(md.required_columns.all (fun col => df.colNames.contains col)) then
        false
      else if md.column_types.any (fun ct =>
          match df.cols.find? (fun c => c.name == ct.1) with
          | some c => c.dtype.asString != ct.2
          | none => false) then
        false
      else true

end DataValidator

/-! ## Helper lemmas -/

instance exceptDecEq {ε α : Type} [DecidableEq ε] [DecidableEq α] :
    DecidableEq (Except ε α) := fun x y =>
  match x, y with
  | .ok a, .ok b =>
    if h : a = b then isTrue (by rw [h])
    else isFalse (by intro hc; cases hc; exact h rfl)
  | .error a, .error b =>
    if h : a = b then isTrue (by rw [h])
    else isFalse (by intro hc; cases hc; exact h rfl)
  | .ok _, .error _ => isFalse (by intro hc; cases hc)
  | .error _, .ok _ => isFalse (by intro hc; cases hc)

/-- A fraction of naturals `a / b` with `a ≤ b`, `0 < b` lies in `[0,1]`. -/
theorem natDiv_unit (a b : ℕ) (hb : 0 < b) (hab : a ≤ b) :
    0 ≤ (a : ℚ) / (b : ℚ) ∧ (a : ℚ) / (b : ℚ) ≤ 1 := by
  have hb' : (0 : ℚ) < (b : ℚ) := by exact_mod_cast hb
  refine ⟨div_nonneg (by positivity) hb'.le, ?_⟩
  rw [div_le_one hb']
  exact_mod_cast hab

/-- `1 - a / b` with `a ≤ b`, `0 < b` lies in `[0,1]`. -/
theorem one_sub_natDiv_unit (a b : ℕ) (hb : 0 < b) (hab : a ≤ b) :
    0 ≤ 1 - (a : ℚ) / (b : ℚ) ∧ 1 - (a : ℚ) / (b : ℚ) ≤ 1 := by
  obtain ⟨h0, h1⟩ := natDiv_unit a b hb hab
  constructor <;> linarith

/-- The arithmetic mean of a nonempty list of rationals in `[0,1]` lies in
`[0,1]`. -/
theorem mean_unit (l : List ℚ) (hne : l ≠ [])
    (h : ∀ x ∈ l, 0 ≤ x ∧ x ≤ 1) :
    0 ≤ l.sum / (l.length : ℚ) ∧ l.sum / (l.length : ℚ) ≤ 1 := by
  have hlen : 0 < l.length := List.length_pos.mpr hne
  have hlen' : (0 : ℚ) < (l.length : ℚ) := by exact_mod_cast hlen
  have hs0 : 0 ≤ l.sum := List.sum_nonneg (fun x hx => (h x hx).1)
  have hs1 : l.sum ≤ (l.length : ℚ) := by
    have := List.sum_le_card_nsmul l 1 (fun x hx => (h x hx).2)
    simpa using this
  exact ⟨div_nonneg hs0 hlen'.le, by rw [div_le_one hlen']; exact hs1⟩

/-- `filterMap` of an if-some-else-none function is `map` after `filter`. -/
theorem filterMap_ite_eq_map_filter {α β : Type} (p : α → Bool) (g : α → β)
    (l : List α) :
    l.filterMap (fun a => if p a then some (g a) else none) =
      (l.filter p).map g := by
  induction l with
  | nil => rfl
  | cons a t ih =>
    by_cases h : p a <;>
      simp [List.filterMap_cons, List.filter_cons, h, ih]

/-- Looking up a key just written by `dictSet` returns the written value. -/
theorem dictFind_dictSet_self (l : List (String × PyVal)) (k : String)
    (v : PyVal) : dictFind (dictSet l k v) k = some v := by
  induction l with
  | nil => simp [dictSet, dictFind]
  | cons kv rest ih =>
    by_cases h : kv.1 = k
    · simp [dictSet, dictFind, h]
    · have hb : (kv.1 == k) = false := by simpa using h
      simp [dictSet, dictFind, hb] at ih ⊢
      exact ih

/-- `dictSet` on one key leaves lookups of other keys unchanged. -/
theorem dictFind_dictSet_ne (l : List (String × PyVal)) (k k' : String)
    (v : PyVal) (h : k' ≠ k) :
    dictFind (dictSet l k v) k' = dictFind l k' := by
  induction l with
  | nil =>
    have hb : (k == k') = false := by simpa using (Ne.symm h)
    simp [dictSet, dictFind, hb]
  | cons kv rest ih =>
    by_cases hk : kv.1 = k
    · have hb : (kv.1 == k) = true := by simpa using hk
      have hb' : (k == k') = false := by simpa using (Ne.symm h)
      have hb'' : (kv.1 == k') = false := by
        subst hk; simpa using (Ne.symm h)
      simp [dictSet, dictFind, hb, hb', hb'']
    · have hb : (kv.1 == k) = false := by simpa using hk
      by_cases hk' : kv.1 = k'
      · have hb' : (kv.1 == k') = true := by simpa using hk'
        simp [dictSet, dictFind, hb, hb']
      · have hb' : (kv.1 == k') = false := by simpa using hk'
        simp [dictSet, dictFind, hb, hb'] at ih ⊢
        exact ih

/-! ## Score bound lemmas -/

namespace QualityChecker

/-- Completeness lies in `[0,1]` for a nonempty well-formed table. -/
theorem check_completeness_unit (df : DataFrame) (hU : df.Uniform)
    (hr : 0 < df.nrows) (hc : df.cols ≠ []) :
    0 ≤ check_completeness df ∧ check_completeness df ≤ 1 := by
  have hcells : df.nullCount ≤ df.nrows * df.ncols := by
    have hbound : ∀ x ∈ df.cols.map (fun c => c.cells.countP Cell.isNull),
        x ≤ df.nrows := by
      intro x hx
      obtain ⟨c, hcmem, rfl⟩ := List.mem_map.mp hx
      calc c.cells.countP Cell.isNull ≤ c.cells.length :=
            List.countP_le_length _
        _ = df.nrows := hU c hcmem
    have := List.sum_le_card_nsmul
      (df.cols.map (fun c => c.cells.countP Cell.isNull)) df.nrows hbound
    simpa [DataFrame.nullCount, DataFrame.ncols, Nat.mul_comm, smul_eq_mul]
      using this
  have hpos : 0 < df.nrows * df.ncols :=
    Nat.mul_pos hr (List.length_pos.mpr hc)
  have := one_sub_natDiv_unit df.nullCount (df.nrows * df.ncols) hpos hcells
  unfold check_completeness
  constructor
  · have := this.1
    push_cast at this ⊢
    linarith
  · have := this.2
    push_cast at this ⊢
    linarith

/-- Each per-column consistency score lies in `[0,1]` for a well-formed
nonempty table. -/
theorem columnConsistency_unit (df : DataFrame) (c : Column)
    (hlen : c.cells.length = df.nrows) (hr : 0 < df.nrows) :
    0 ≤ columnConsistency df c ∧ columnConsistency df c ≤ 1 := by
  unfold columnConsistency
  have hout : countOutliers c.cells
      (quantile (numVals c.cells) (1/4) -
        3/2 * (quantile (numVals c.cells) (3/4) - quantile (numVals c.cells) (1/4)))
      (quantile (numVals c.cells) (3/4) +
        3/2 * (quantile (numVals c.cells) (3/4) - quantile (numVals c.cells) (1/4)))
      ≤ df.nrows := by
    calc countOutliers c.cells _ _ ≤ c.cells.length := List.countP_le_length _
      _ = df.nrows := hlen
  exact one_sub_natDiv_unit _ df.nrows hr hout

/-- Consistency lies in `[0,1]` for a well-formed nonempty table. -/
theorem check_consistency_unit (df : DataFrame) (hU : df.Uniform)
    (hr : 0 < df.nrows) :
    0 ≤ check_consistency df ∧ check_consistency df ≤ 1 := by
  unfold check_consistency
  set scores := df.cols.filterMap (fun c =>
    if c.dtype.isNumeric then some (columnConsistency df c) else none) with hs
  by_cases h : scores.isEmpty
  · simp [h]
  · have hne : scores ≠ [] := by
      intro hnil; rw [hnil] at h; simp at h
    have hmem : ∀ x ∈ scores, 0 ≤ x ∧ x ≤ 1 := by
      intro x hx
      rw [hs] at hx
      obtain ⟨c, hcmem, hfc⟩ := List.mem_filterMap.mp hx
      by_cases hnum : c.dtype.isNumeric
      · rw [if_pos hnum] at hfc
        obtain rfl := Option.some.inj hfc
        exact columnConsistency_unit df c (hU c hcmem) hr
      · rw [if_neg hnum] at hfc
        exact absurd hfc (by simp)
    simpa [h] using mean_unit scores hne hmem

/-- The accuracy outlier count never exceeds the column length. -/
theorem accuracyOutliers_le (cells : List Cell) :
    accuracyOutliers cells ≤ cells.length := by
  unfold accuracyOutliers
  by_cases h : (numVals cells).length ≤ 1
  · simp [h]
  · simp only [if_neg h]
    exact List.countP_le_length _

/-- Accuracy lies in `[0,1]` for a well-formed nonempty table. -/
theorem check_accuracy_unit (df : DataFrame) (hU : df.Uniform)
    (hr : 0 < df.nrows) :
    0 ≤ check_accuracy df ∧ check_accuracy df ≤ 1 := by
  unfold check_accuracy
  set scores := df.cols.filterMap (fun c =>
    if c.dtype.isNumeric then
      some (1 - (accuracyOutliers c.cells : ℚ) / (df.nrows : ℚ))
    else none) with hs
  by_cases h : scores.isEmpty
  · simp [h]
  · have hne : scores ≠ [] := by
      intro hnil; rw [hnil] at h; simp at h
    have hmem : ∀ x ∈ scores, 0 ≤ x ∧ x ≤ 1 := by
      intro x hx
      rw [hs] at hx
      obtain ⟨c, hcmem, hfc⟩ := List.mem_filterMap.mp hx
      by_cases hnum : c.dtype.isNumeric
      · rw [if_pos hnum] at hfc
        obtain rfl := Option.some.inj hfc
        have : accuracyOutliers c.cells ≤ df.nrows :=
          (hU c hcmem) ▸ accuracyOutliers_le c.cells
        exact one_sub_natDiv_unit _ df.nrows hr this
      · rw [if_neg hnum] at hfc
        exact absurd hfc (by simp)
    simpa [h] using mean_unit scores hne hmem

/-- Format validity lies in `[0,1]` for a well-formed nonempty table. -/
theorem check_format_validity_unit (df : DataFrame) (hU : df.Uniform)
    (hr : 0 < df.nrows) :
    0 ≤ check_format_validity df ∧ check_format_validity df ≤ 1 := by
  unfold check_format_validity
  set scores := df.cols.filterMap (fun c =>
    if c.dtype.isNumeric then
      some (1 - (c.cells.countP Cell.isNull : ℚ) / (df.nrows : ℚ))
    else none) with hs
  by_cases h : scores.isEmpty
  · simp [h]
  · have hne : scores ≠ [] := by
      intro hnil; rw [hnil] at h; simp at h
    have hmem : ∀ x ∈ scores, 0 ≤ x ∧ x ≤ 1 := by
      intro x hx
      rw [hs] at hx
      obtain ⟨c, hcmem, hfc⟩ := List.mem_filterMap.mp hx
      by_cases hnum : c.dtype.isNumeric
      · rw [if_pos hnum] at hfc
        obtain rfl := Option.some.inj hfc
        have : c.cells.countP Cell.isNull ≤ df.nrows :=
          (hU c hcmem) ▸ List.countP_le_length _
        exact one_sub_natDiv_unit _ df.nrows hr this
      · rw [if_neg hnum] at hfc
        exact absurd hfc (by simp)
    simpa [h] using mean_unit scores hne hmem

/-- The declared last-updated timestamp is not in the future relative to
`now`: the computed `days_old` is nonnegative (always satisfied when no
timestamp is declared). -/
def TimelyMeta (md : QMeta) (now : ℤ) : Prop :=
  match md.last_updated with
  | some t => 0 ≤ (now - t).fdiv 86400
  | none => True

instance (md : QMeta) (now : ℤ) : Decidable (TimelyMeta md now) := by
  unfold TimelyMeta
  cases md.last_updated <;> infer_instance

/-- Timeliness lies in `[0,1]` when the timestamp is not in the future. -/
theorem check_timeliness_unit (md : QMeta) (now : ℤ)
    (h : TimelyMeta md now) :
    0 ≤ check_timeliness md now ∧ check_timeliness md now ≤ 1 := by
  unfold check_timeliness
  unfold TimelyMeta at h
  cases hlu : md.last_updated with
  | none => norm_num
  | some t =>
    rw [hlu] at h
    have hd : (0 : ℚ) ≤ ((now - t).fdiv 86400 : ℚ) := by exact_mod_cast h
    constructor
    · exact le_max_left 0 _
    · apply max_le (by norm_num)
      have : (0 : ℚ) ≤ ((now - t).fdiv 86400 : ℚ) / 30 := by positivity
      linarith

/-- A successfully computed schema-compliance score lies in `[0,1]`. -/
theorem check_schema_compliance_unit (df : DataFrame) (md : QMeta) (q : ℚ)
    (h : check_schema_compliance df md = .ok q) : 0 ≤ q ∧ q ≤ 1 := by
  unfold check_schema_compliance at h
  cases hsc : md.schema with
  | none =>
    rw [hsc] at h
    simp at h
    subst h
    norm_num
  | some expected =>
    rw [hsc] at h
    by_cases he : expected.isEmpty
    · simp [he] at h
    · simp [he] at h
      subst h
      have hlen : 0 < expected.length := by
        cases expected with
        | nil => simp at he
        | cons a t => simp
      exact natDiv_unit _ expected.length hlen (List.countP_le_length _)

end QualityChecker

/-! ## Claim theorems -/

open QualityChecker DataEncryption DataManager DataValidator

/-- Claim C2: for every plaintext byte sequence and every non-empty
password, encrypting with the key derived from (password, instance salt)
and then decrypting with the key derived from the same (password, salt)
returns the original plaintext, and decrypting that ciphertext with any
other password fails with `AuthenticationError` rather than returning
garbage bytes. -/
theorem claim_C2_encryption_roundtrip (st st2 st3 : EncState)
    (data : List ℕ) (pw pw2 : String) (hpw : pw ≠ "") (hne : pw2 ≠ pw) :
    ∀ ct salt st', DataEncryption.encrypt_file st data pw = .ok ((ct, salt), st') →
      DataEncryption.decrypt_file st2 ct pw salt =
        .ok (data, { st2 with salt := salt }) ∧
      DataEncryption.decrypt_file st3 ct pw2 salt =
        .error .authenticationError := by
  intro ct salt st' h
  unfold DataEncryption.encrypt_file at h
  simp [DataEncryption.generate_key, DataEncryption.fernetEncrypt,
    Bind.bind, Except.bind] at h
  obtain ⟨⟨hct, hsalt⟩, hst⟩ := h
  subst hct hsalt
  constructor
  · unfold DataEncryption.decrypt_file
    simp [DataEncryption.generate_key, DataEncryption.fernetDecrypt,
      Bind.bind, Except.bind]
  · unfold DataEncryption.decrypt_file
    simp [DataEncryption.generate_key, DataEncryption.fernetDecrypt,
      Bind.bind, Except.bind, FernetKey.mk.injEq]
    rw [if_neg (fun hcontra : pw = pw2 => hne hcontra.symm)]

/-- Witness for C2 at a concrete input: plaintext `[1,2,3]`, password
`"secret"`, wrong password `"wrong"`, instance salt of 16 bytes. -/
theorem claim_C2_witness :
    DataEncryption.decrypt_file ⟨List.replicate 16 7⟩
        (Blob.token ⟨"secret", List.replicate 16 7, 100000, 32⟩ [1, 2, 3])
        "secret" (List.replicate 16 7) =
      .ok ([1, 2, 3], ⟨List.replicate 16 7⟩) ∧
    DataEncryption.decrypt_file ⟨List.replicate 16 7⟩
        (Blob.token ⟨"secret", List.replicate 16 7, 100000, 32⟩ [1, 2, 3])
        "wrong" (List.replicate 16 7) =
      .error .authenticationError :=
  claim_C2_encryption_roundtrip ⟨List.replicate 16 7⟩ ⟨List.replicate 16 7⟩
    ⟨List.replicate 16 7⟩ [1, 2, 3] "secret" "wrong" (by decide) (by decide)
    _ _ _ rfl

/-- Concrete 16-byte entropy used by the C3 counterexample. -/
def c3salt : List ℕ := List.replicate 16 55

/-- Counterexample to claim C3 as stated: on one `DataEncryption` instance,
two independent encryptions of the distinct plaintexts `[0]` and `[1]`
under the same password both return the identical instance salt generated
in `__init__` — the salts are not distinct fresh values. -/
theorem claim_C3_counterexample :
    DataEncryption.encrypt_file (DataEncryption.init c3salt) [0] "pw" =
      .ok ((Blob.token ⟨"pw", c3salt, 100000, 32⟩ [0], c3salt),
           DataEncryption.init c3salt) ∧
    DataEncryption.encrypt_file (DataEncryption.init c3salt) [1] "pw" =
      .ok ((Blob.token ⟨"pw", c3salt, 100000, 32⟩ [1], c3salt),
           DataEncryption.init c3salt) ∧
    ([0] : List ℕ) ≠ [1] :=
  ⟨rfl, rfl, by decide⟩

/-- Claim C3 as amended: the salt is drawn from `os.urandom(16)` once per
`DataEncryption` instance, in `__init__`; every encryption performed on the
same instance returns that same instance salt unchanged (the instance state
is not modified by encryption), so two encryptions on one instance reuse
one salt. -/
theorem claim_C3_salt_per_instance (st : EncState) (d1 d2 : List ℕ)
    (p1 p2 : String) :
    ∀ r1 r2, DataEncryption.encrypt_file st d1 p1 = .ok r1 →
      DataEncryption.encrypt_file st d2 p2 = .ok r2 →
      r1.1.2 = st.salt ∧ r2.1.2 = st.salt ∧ r1.1.2 = r2.1.2 ∧
      r1.2 = st ∧ r2.2 = st := by
  intro r1 r2 h1 h2
  unfold DataEncryption.encrypt_file at h1 h2
  simp [DataEncryption.generate_key, DataEncryption.fernetEncrypt,
    Bind.bind, Except.bind] at h1 h2
  subst h1 h2
  simp

/-- Witness for the amended C3 at concrete inputs. -/
theorem claim_C3_witness :
    (((Blob.token ⟨"a", c3salt, 100000, 32⟩ [2], c3salt),
        (⟨c3salt⟩ : EncState)).1.2 = c3salt) ∧
    (((Blob.token ⟨"b", c3salt, 100000, 32⟩ [3], c3salt),
        (⟨c3salt⟩ : EncState)).1.2 = c3salt) ∧
    (((Blob.token ⟨"a", c3salt, 100000, 32⟩ [2], c3salt),
        (⟨c3salt⟩ : EncState)).1.2 =
      ((Blob.token ⟨"b", c3salt, 100000, 32⟩ [3], c3salt),
        (⟨c3salt⟩ : EncState)).1.2) ∧
    (((Blob.token ⟨"a", c3salt, 100000, 32⟩ [2], c3salt),
        (⟨c3salt⟩ : EncState)).2 = (⟨c3salt⟩ : EncState)) ∧
    (((Blob.token ⟨"b", c3salt, 100000, 32⟩ [3], c3salt),
        (⟨c3salt⟩ : EncState)).2 = (⟨c3salt⟩ : EncState)) :=
  claim_C3_salt_per_instance ⟨c3salt⟩ [2] [3] "a" "b" _ _ rfl rfl

/-- Concrete 16-byte entropy used by the C4 counterexample. -/
def c4salt : List ℕ := List.replicate 16 3

/-- Counterexample to claim C4 as stated: `generate_key` performs no
password validation, so with the empty-string password it succeeds and
returns a derived key (it does not fail with `WeakInputError` or any other
error). -/
theorem claim_C4_counterexample :
    DataEncryption.generate_key (DataEncryption.init c4salt) "" =
      .ok ⟨"", c4salt, 100000, 32⟩ :=
  rfl

/-- Claim C4 as amended: `generate_key` never validates the password — for
every password (the empty string included) and the current instance salt it
returns (the base64url encoding of) the symmetric key derived by
PBKDF2-HMAC-SHA256 with output length 32 bytes and 100,000 iterations. -/
theorem claim_C4_generate_key_total (st : EncState) (pw : String) :
    DataEncryption.generate_key st pw =
      .ok { password := pw, salt := st.salt, iterations := 100000, length := 32 } :=
  rfl

/-- Claim C6: `QualityChecker.evaluate_quality` raises for every input and
can never return a quality report: the call `self._load_dataset(file_path)`
hits a method that is not defined anywhere on the class, the resulting
`AttributeError` is caught by the catch-all handler, and it is re-raised as
a single wrapping `ValueError`. -/
theorem claim_C6_evaluate_always_raises (filePath : String) (md : QMeta)
    (now : ℤ) :
    QualityChecker.evaluate_quality filePath md now =
      .error (.valueError .attributeError) :=
  rfl

/-- The dot product of the six detailed scores with the fixed weight
table, taken in metric declaration order. -/
def QualityChecker.dotProduct (s : QualityScores) : ℚ :=
  (metricOrder.map (fun m => s.get m * weights m)).sum

/-- Table for the C1 counterexample: one `int64` column, one row, no
missing values. -/
def c1df : DataFrame :=
  { nrows := 1
    cols := [{ name := "a", dtype := .int64, cells := [.num 1] }] }

/-- Metadata for the C1 counterexample: `last_updated` 30 days in the
future of the evaluation instant (epoch second 2592000 against `now = 0`),
no declared schema. -/
def c1md : QMeta := { last_updated := some 2592000, schema := none }

/-- The report the scorer computes on the C1 counterexample input:
timeliness `max(0, 1 - (-30)/30) = 2` exceeds 1 and drives the overall
score to 1.05. -/
def c1report : QualityReport :=
  { overall_score := 21/20
    detailed_scores :=
      { completeness := 1, consistency := 1, accuracy := 1,
        timeliness := 2, format_validity := 1, schema_compliance := 1/2 }
    recommendations := [advisory .timeliness, advisory .schema_compliance] }

/-- Evaluation of the scorer on the C1 counterexample input. -/
theorem c1_report_eval :
    QualityChecker.computeQualityReport c1df c1md 0 = .ok c1report := by
  have h1 : check_completeness c1df = 1 := by
    norm_num [check_completeness, DataFrame.nullCount, DataFrame.ncols, c1df,
      List.countP, List.countP.go, Cell.isNull]
  have hq : quantile [1] (1/4) = 1 := by
    norm_num [quantile, List.insertionSort, List.orderedInsert,
      List.getD_cons_zero, List.getD_cons_succ, Int.toNat_zero, Int.floor_zero]
  have hq3 : quantile [1] (3/4) = 1 := by
    norm_num [quantile, List.insertionSort, List.orderedInsert,
      List.getD_cons_zero, List.getD_cons_succ, Int.toNat_zero, Int.floor_zero]
  have h2 : check_consistency c1df = 1 := by
    norm_num [check_consistency, columnConsistency, c1df, Dtype.isNumeric,
      List.filterMap_cons, List.filterMap_nil, numVals, hq, hq3,
      countOutliers, isOutlierCell, List.countP, List.countP.go]
  have h3 : check_accuracy c1df = 1 := by
    norm_num [check_accuracy, accuracyOutliers, numVals, c1df, Dtype.isNumeric,
      List.filterMap_cons, List.filterMap_nil]
  have hfd : ((-2592000 : ℤ)).fdiv 86400 = -30 := rfl
  have h4 : check_timeliness c1md 0 = 2 := by
    norm_num [check_timeliness, c1md, hfd, max_def]
  have h5 : check_format_validity c1df = 1 := by
    norm_num [check_format_validity, c1df, Dtype.isNumeric,
      List.filterMap_cons, List.filterMap_nil, List.countP, List.countP.go,
      Cell.isNull]
  have h6 : check_schema_compliance c1df c1md = .ok (1/2) := by
    simp [check_schema_compliance, c1md]
  have hrec : generate_recommendations ⟨1, 1, 1, 2, 1, 1/2⟩ =
      [advisory .timeliness, advisory .schema_compliance] := by
    norm_num [generate_recommendations, metricOrder, QualityScores.get,
      threshold, quality_thresholds, List.filterMap_cons, List.filterMap_nil]
  unfold QualityChecker.computeQualityReport
  rw [h6]
  simp only [Bind.bind, Except.bind, h1, h2, h3, h4, h5]
  rw [hrec]
  norm_num [c1report, weights]

/-- Counterexample to claim C1 as stated: on a table with a declared
last-updated timestamp lying in the future, the scorer returns a report
whose overall score is 21/20, outside [0,1]. -/
theorem claim_C1_counterexample :
    QualityChecker.computeQualityReport c1df c1md 0 = .ok c1report ∧
    c1report.overall_score = 21/20 ∧ ¬ (c1report.overall_score ≤ 1) := by
  refine ⟨c1_report_eval, rfl, by norm_num [c1report]⟩

/-- Claim C1 as amended: the six weights sum to exactly 1.0 and every
returned report's overall score equals the dot product of its detailed
scores with the weight table; the overall score lies in [0,1] whenever the
(uniform, nonempty) table's declared last-updated timestamp is not in the
future — a future timestamp makes the timeliness score exceed 1 and can
push the overall score above 1. -/
theorem claim_C1_weighted_score_amended :
    ((metricOrder.map weights).sum = 1) ∧
    (∀ df md now r, QualityChecker.computeQualityReport df md now = .ok r →
        r.overall_score = QualityChecker.dotProduct r.detailed_scores) ∧
    (∀ df md now r, df.Uniform → 0 < df.nrows → df.cols ≠ [] →
        TimelyMeta md now →
        QualityChecker.computeQualityReport df md now = .ok r →
        0 ≤ r.overall_score ∧ r.overall_score ≤ 1) := by
  refine ⟨by norm_num [metricOrder, weights], ?_, ?_⟩
  · intro df md now r hok
    unfold QualityChecker.computeQualityReport at hok
    cases hsc : check_schema_compliance df md with
    | error e =>
      rw [hsc] at hok
      simp [Bind.bind, Except.bind] at hok
    | ok q =>
      rw [hsc] at hok
      simp [Bind.bind, Except.bind] at hok
      subst hok
      simp [QualityChecker.dotProduct, metricOrder, QualityScores.get]
      ring
  · intro df md now r hU hr hc ht hok
    unfold QualityChecker.computeQualityReport at hok
    cases hsc : check_schema_compliance df md with
    | error e =>
      rw [hsc] at hok
      simp [Bind.bind, Except.bind] at hok
    | ok q =>
      rw [hsc] at hok
      simp [Bind.bind, Except.bind] at hok
      subst hok
      have h1 := check_completeness_unit df hU hr hc
      have h2 := check_consistency_unit df hU hr
      have h3 := check_accuracy_unit df hU hr
      have h4 := check_timeliness_unit md now ht
      have h5 := check_format_validity_unit df hU hr
      have h6 := check_schema_compliance_unit df md q hsc
      simp only [weights]
      constructor
      · have t1 := mul_nonneg h1.1 (by norm_num : (0:ℚ) ≤ 3/10)
        have t2 := mul_nonneg h2.1 (by norm_num : (0:ℚ) ≤ 2/10)
        have t3 := mul_nonneg h3.1 (by norm_num : (0:ℚ) ≤ 2/10)
        have t4 := mul_nonneg h4.1 (by norm_num : (0:ℚ) ≤ 1/10)
        have t5 := mul_nonneg h5.1 (by norm_num : (0:ℚ) ≤ 1/10)
        have t6 := mul_nonneg h6.1 (by norm_num : (0:ℚ) ≤ 1/10)
        linarith
      · have t1 : check_completeness df * (3/10) ≤ 3/10 :=
          mul_le_of_le_one_left (by norm_num) h1.2
        have t2 : check_consistency df * (2/10) ≤ 2/10 :=
          mul_le_of_le_one_left (by norm_num) h2.2
        have t3 : check_accuracy df * (2/10) ≤ 2/10 :=
          mul_le_of_le_one_left (by norm_num) h3.2
        have t4 : check_timeliness md now * (1/10) ≤ 1/10 :=
          mul_le_of_le_one_left (by norm_num) h4.2
        have t5 : check_format_validity df * (1/10) ≤ 1/10 :=
          mul_le_of_le_one_left (by norm_num) h5.2
        have t6 : q * (1/10) ≤ 1/10 :=
          mul_le_of_le_one_left (by norm_num) h6.2
        linarith

/-- Table for the C1 witness: one `int64` column, one row. -/
def c1wdf : DataFrame :=
  { nrows := 1
    cols := [{ name := "a", dtype := .int64, cells := [.num 1] }] }

/-- Metadata for the C1 witness: no timestamp, no schema. -/
def c1wmd : QMeta := { last_updated := none, schema := none }

/-- The report computed on the C1 witness input. -/
def c1wreport : QualityReport :=
  { overall_score := 9/10
    detailed_scores :=
      { completeness := 1, consistency := 1, accuracy := 1,
        timeliness := 1/2, format_validity := 1, schema_compliance := 1/2 }
    recommendations := [advisory .timeliness, advisory .schema_compliance] }

/-- Evaluation of the scorer on the C1 witness input. -/
theorem c1w_report_eval :
    QualityChecker.computeQualityReport c1wdf c1wmd 0 = .ok c1wreport := by
  have h1 : check_completeness c1wdf = 1 := by
    norm_num [check_completeness, DataFrame.nullCount, DataFrame.ncols, c1wdf,
      List.countP, List.countP.go, Cell.isNull]
  have hq : quantile [1] (1/4) = 1 := by
    norm_num [quantile, List.insertionSort, List.orderedInsert,
      List.getD_cons_zero, List.getD_cons_succ, Int.toNat_zero, Int.floor_zero]
  have hq3 : quantile [1] (3/4) = 1 := by
    norm_num [quantile, List.insertionSort, List.orderedInsert,
      List.getD_cons_zero, List.getD_cons_succ, Int.toNat_zero, Int.floor_zero]
  have h2 : check_consistency c1wdf = 1 := by
    norm_num [check_consistency, columnConsistency, c1wdf, Dtype.isNumeric,
      List.filterMap_cons, List.filterMap_nil, numVals, hq, hq3,
      countOutliers, isOutlierCell, List.countP, List.countP.go]
  have h3 : check_accuracy c1wdf = 1 := by
    norm_num [check_accuracy, accuracyOutliers, numVals, c1wdf, Dtype.isNumeric,
      List.filterMap_cons, List.filterMap_nil]
  have h4 : check_timeliness c1wmd 0 = 1/2 := by
    norm_num [check_timeliness, c1wmd]
  have h5 : check_format_validity c1wdf = 1 := by
    norm_num [check_format_validity, c1wdf, Dtype.isNumeric,
      List.filterMap_cons, List.filterMap_nil, List.countP, List.countP.go,
      Cell.isNull]
  have h6 : check_schema_compliance c1wdf c1wmd = .ok (1/2) := by
    simp [check_schema_compliance, c1wmd]
  have hrec : generate_recommendations ⟨1, 1, 1, 1/2, 1, 1/2⟩ =
      [advisory .timeliness, advisory .schema_compliance] := by
    norm_num [generate_recommendations, metricOrder, QualityScores.get,
      threshold, quality_thresholds, List.filterMap_cons, List.filterMap_nil]
  unfold QualityChecker.computeQualityReport
  rw [h6]
  simp only [Bind.bind, Except.bind, h1, h2, h3, h4, h5]
  rw [hrec]
  norm_num [c1wreport, weights]

/-- Witness for the amended C1 at a concrete input. -/
theorem claim_C1_witness :
    (c1wreport.overall_score = QualityChecker.dotProduct c1wreport.detailed_scores) ∧
    0 ≤ c1wreport.overall_score ∧ c1wreport.overall_score ≤ 1 :=
  ⟨claim_C1_weighted_score_amended.2.1 c1wdf c1wmd 0 c1wreport c1w_report_eval,
   claim_C1_weighted_score_amended.2.2 c1wdf c1wmd 0 c1wreport
     (by decide) (by decide) (by decide) trivial c1w_report_eval⟩

/-- `filterMap` of an if-some-else-none function over a decidable
proposition is `map` after `filter`. -/
theorem filterMap_ifp_eq_map_filter {α β : Type} (p : α → Prop)
    [DecidablePred p] (g : α → β) (l : List α) :
    l.filterMap (fun a => if p a then some (g a) else none) =
      (l.filter (fun a => decide (p a))).map g := by
  induction l with
  | nil => rfl
  | cons a t ih =>
    by_cases h : p a <;>
      simp [List.filterMap_cons, List.filter_cons, h, ih]

/-- The advisory strings of the six metrics are pairwise distinct. -/
theorem advisory_injective : Function.Injective advisory := by
  intro m m' h
  cases m <;> cases m' <;> first
    | rfl
    | (exfalso; simp [advisory] at h)

/-- Every metric occurs in the declaration order list. -/
theorem mem_metricOrder (m : Metric) : m ∈ metricOrder := by
  cases m <;> simp [metricOrder]

/-- The declaration order list has no duplicates. -/
theorem metricOrder_nodup : metricOrder.Nodup := by decide

/-- Scores used in the C7 counterexample: a consistency score of 0.92,
every other metric at 1. -/
def c7scores : QualityScores :=
  { completeness := 1, consistency := 23/25, accuracy := 1,
    timeliness := 1, format_validity := 1, schema_compliance := 1 }

/-- Counterexample to claim C7 as stated: at consistency score 0.92 the
consistency advisory is appended even though 0.92 is not below 0.9 — the
source threshold for consistency is 0.95, not 0.9. -/
theorem claim_C7_counterexample :
    advisory .consistency ∈ generate_recommendations c7scores ∧
    ¬ (c7scores.get .consistency < 9/10) := by
  constructor
  · norm_num [generate_recommendations, metricOrder, QualityScores.get,
      threshold, quality_thresholds, c7scores,
      List.filterMap_cons, List.filterMap_nil]
  · norm_num [c7scores, QualityScores.get]

/-- Claim C7 as amended: an advisory is appended for a metric exactly when
its score falls below `quality_thresholds.get(metric, 0.9)` — 0.9 for
completeness, 0.95 for consistency and accuracy, 30 for timeliness, and
the 0.9 lookup default for format_validity and schema_compliance; the
advisories follow metric declaration order and no advisory string is ever
duplicated in the returned list. -/
theorem claim_C7_recommendations_amended (s : QualityScores) :
    generate_recommendations s =
      ((metricOrder.filter (fun m => decide (s.get m < threshold m))).map
        advisory) ∧
    (∀ m, advisory m ∈ generate_recommendations s ↔ s.get m < threshold m) ∧
    (generate_recommendations s).Nodup := by
  have hfirst : generate_recommendations s =
      ((metricOrder.filter (fun m => decide (s.get m < threshold m))).map
        advisory) := by
    unfold generate_recommendations
    exact filterMap_ifp_eq_map_filter _ advisory metricOrder
  refine ⟨hfirst, ?_, ?_⟩
  · intro m
    rw [hfirst]
    constructor
    · intro hmem
      obtain ⟨m', hm', heq⟩ := List.mem_map.mp hmem
      obtain rfl := advisory_injective heq
      have := (List.mem_filter.mp hm').2
      exact of_decide_eq_true this
    · intro hlt
      exact List.mem_map.mpr
        ⟨m, List.mem_filter.mpr ⟨mem_metricOrder m, decide_eq_true hlt⟩, rfl⟩
  · rw [hfirst]
    exact (metricOrder_nodup.filter _).map advisory_injective

/-- The single-column table `[1,2,3,4,100]` of the C8 boundary scenario. -/
def c8df : DataFrame :=
  { nrows := 5
    cols := [{ name := "a", dtype := .int64,
               cells := [.num 1, .num 2, .num 3, .num 4, .num 100] }] }

/-- An all-object table used to witness the no-numeric-column branch. -/
def c8odf : DataFrame :=
  { nrows := 2
    cols := [{ name := "s", dtype := .object, cells := [.str "x", .null] }] }

/-- Claim C8: on the single numeric column `[1,2,3,4,100]` the consistency
metric computes Q1 = 2 and Q3 = 4 (so IQR = 2 and IQR bounds [-1, 7]),
flags exactly the value 100 as an outlier, and scores 0.8; in general the
consistency score is the unweighted mean over the numeric columns of
`1 - outliers/rowcount`, and 1.0 when there is no numeric column. -/
theorem claim_C8_consistency_boundary :
    quantile [1, 2, 3, 4, 100] (1/4) = 2 ∧
    quantile [1, 2, 3, 4, 100] (3/4) = 4 ∧
    ([Cell.num 1, .num 2, .num 3, .num 4, .num 100].filter
        (isOutlierCell (-1) 7) = [Cell.num 100]) ∧
    countOutliers [.num 1, .num 2, .num 3, .num 4, .num 100] (-1) 7 = 1 ∧
    check_consistency c8df = 4/5 ∧
    (∀ df, (∀ c ∈ df.cols, c.dtype.isNumeric = false) →
      check_consistency df = 1) ∧
    (∀ df, df.cols.filter (fun c => c.dtype.isNumeric) ≠ [] →
      check_consistency df =
        ((df.cols.filter (fun c => c.dtype.isNumeric)).map
            (columnConsistency df)).sum /
          ((df.cols.filter (fun c => c.dtype.isNumeric)).length : ℚ)) := by
  have hq1 : quantile [1, 2, 3, 4, 100] (1/4) = 2 := by
    norm_num [quantile, List.insertionSort, List.orderedInsert,
      List.getD_cons_zero, List.getD_cons_succ, Int.toNat_ofNat]
  have hq3 : quantile [1, 2, 3, 4, 100] (3/4) = 4 := by
    have ht : Int.toNat 3 = 3 := rfl
    norm_num [quantile, List.insertionSort, List.orderedInsert, ht,
      List.getD_cons_zero, List.getD_cons_succ]
  have hfil : ([Cell.num 1, .num 2, .num 3, .num 4, .num 100].filter
      (isOutlierCell (-1) 7) = [Cell.num 100]) := by
    norm_num [isOutlierCell, List.filter_cons]
  have hco : countOutliers [Cell.num 1, .num 2, .num 3, .num 4, .num 100]
      (-1) 7 = 1 := by
    norm_num [countOutliers, isOutlierCell, List.countP, List.countP.go]
  have hnv : numVals [Cell.num 1, .num 2, .num 3, .num 4, .num 100] =
      [1, 2, 3, 4, 100] := by
    norm_num [numVals, List.filterMap_cons, List.filterMap_nil]
  refine ⟨hq1, hq3, hfil, hco, ?_, ?_, ?_⟩
  · unfold check_consistency c8df
    norm_num [Dtype.isNumeric, List.filterMap_cons, List.filterMap_nil,
      columnConsistency, hnv, hq1, hq3, hco]
  · intro df h
    unfold check_consistency
    have hnil : df.cols.filterMap (fun c =>
        if c.dtype.isNumeric then some (columnConsistency df c) else none) =
        [] := by
      apply List.filterMap_eq_nil_iff.mpr
      intro c hc
      simp [h c hc]
    rw [hnil]
    simp
  · intro df hne
    unfold check_consistency
    rw [filterMap_ifp_eq_map_filter (fun c => c.dtype.isNumeric = true)
      (columnConsistency df) df.cols]
    have hpe : (fun c : Column => decide (c.dtype.isNumeric = true)) =
        (fun c : Column => c.dtype.isNumeric) := by
      funext c
      simp
    rw [hpe]
    have hmapne : (df.cols.filter (fun c => c.dtype.isNumeric)).map
        (columnConsistency df) ≠ [] := by
      simpa using hne
    rw [if_neg (by simpa using hmapne)]
    rw [List.length_map]

/-- Witness for the general conjuncts of C8 at concrete tables. -/
theorem claim_C8_witness :
    check_consistency c8odf = 1 ∧
    check_consistency c8df =
      ((c8df.cols.filter (fun c => c.dtype.isNumeric)).map
          (columnConsistency c8df)).sum /
        ((c8df.cols.filter (fun c => c.dtype.isNumeric)).length : ℚ) :=
  ⟨claim_C8_consistency_boundary.2.2.2.2.2.1 c8odf (by decide),
   claim_C8_consistency_boundary.2.2.2.2.2.2 c8df (by decide)⟩

/-- The entry list of a metadata dict value (empty for non-dicts). -/
def PyVal.entries : PyVal → List (String × PyVal)
  | .dict l => l
  | _ => []

/-- Claim C5: `upload_dataset` computes `file_hash` over the original
plaintext bytes before the encryption branch, so the returned hash is the
same whether or not a (truthy) password is supplied, and with a password
the stored metadata record carries `encrypted=true` together with the
hex-encoded salt. -/
theorem claim_C5_upload_hash_marker (dm : ManagerState) (fileData : List ℕ)
    (metadata : List (String × PyVal)) (p : String) (hp : p ≠ "") :
    ∀ out dm' out2 dm2,
      upload_dataset dm fileData metadata (some p) = .ok (out, dm') →
      upload_dataset dm fileData metadata none = .ok (out2, dm2) →
      out.result.file_hash = sha256Hex fileData ∧
      out2.result.file_hash = sha256Hex fileData ∧
      out.result.file_hash = out2.result.file_hash ∧
      dictFind (PyVal.entries out.storedMeta) "metadata" =
        some (.dict (dictSet (dictSet metadata "encrypted" (.boolV true))
          "salt" (.str (bytesHex dm.enc.salt)))) ∧
      dictGet (dictSet (dictSet metadata "encrypted" (.boolV true))
          "salt" (.str (bytesHex dm.enc.salt))) "encrypted" (.boolV false) =
        .boolV true ∧
      dictFind (dictSet (dictSet metadata "encrypted" (.boolV true))
          "salt" (.str (bytesHex dm.enc.salt))) "salt" =
        some (.str (bytesHex dm.enc.salt)) := by
  intro out dm' out2 dm2 h1 h2
  have htr : optStrTruthy (some p) = true := by
    simp [optStrTruthy]
    exact hp
  unfold upload_dataset at h1 h2
  rw [htr] at h1
  simp only [optStrTruthy, Bind.bind, Except.bind, if_true, if_false,
    Bool.false_eq_true, DataEncryption.encrypt_file,
    DataEncryption.generate_key, DataEncryption.fernetEncrypt] at h1 h2
  obtain ⟨hout, _⟩ := Prod.mk.injEq .. ▸ (Except.ok.inj h1)
  obtain ⟨hout2, _⟩ := Prod.mk.injEq .. ▸ (Except.ok.inj h2)
  subst hout hout2
  refine ⟨rfl, rfl, rfl, ?_, ?_, ?_⟩
  · simp [PyVal.entries, dictFind, List.find?]
  · unfold dictGet
    rw [dictFind_dictSet_ne _ _ _ _ (by decide), dictFind_dictSet_self]
    rfl
  · rw [dictFind_dictSet_self]

/-- Concrete instance salt for the C5 witness. -/
def c5salt : List ℕ := List.replicate 16 1

/-- Concrete manager state for the C5 witness. -/
def c5dm : ManagerState := ⟨⟨c5salt⟩⟩

/-- Concrete file bytes for the C5 witness. -/
def c5file : List ℕ := [10, 20]

/-- Concrete caller metadata for the C5 witness. -/
def c5md : List (String × PyVal) := [("source", .str "unit")]

/-- The caller metadata after the encrypted-upload mutations. -/
def c5mdEnc : List (String × PyVal) :=
  dictSet (dictSet c5md "encrypted" (.boolV true)) "salt"
    (.str (bytesHex c5salt))

/-- The ciphertext blob stored by the C5 witness upload. -/
def c5blob : DataEncryption.Blob := .token ⟨"pw", c5salt, 100000, 32⟩ c5file

/-- The metadata object stored by the C5 witness upload. -/
def c5meta : PyVal := .dict
  [("file_hash", .str (sha256Hex c5file)),
   ("ipfs_hash", .str (ipfsAdd c5blob)),
   ("metadata", .dict c5mdEnc)]

/-- The upload outcome of the C5 witness (password supplied). -/
def c5out : UploadOutcome :=
  ⟨⟨ipfsAddJson c5meta, ipfsAdd c5blob, sha256Hex c5file⟩, c5blob, c5meta⟩

/-- The plaintext blob stored by the passwordless C5 witness upload. -/
def c5blob2 : DataEncryption.Blob := .plain c5file

/-- The metadata object stored by the passwordless C5 witness upload. -/
def c5meta2 : PyVal := .dict
  [("file_hash", .str (sha256Hex c5file)),
   ("ipfs_hash", .str (ipfsAdd c5blob2)),
   ("metadata", .dict (dictSet c5md "encrypted" (.boolV false)))]

/-- The upload outcome of the passwordless C5 witness upload. -/
def c5out2 : UploadOutcome :=
  ⟨⟨ipfsAddJson c5meta2, ipfsAdd c5blob2, sha256Hex c5file⟩, c5blob2, c5meta2⟩

/-- Witness for C5 at a concrete input. -/
theorem claim_C5_witness :
    c5out.result.file_hash = sha256Hex c5file ∧
    c5out2.result.file_hash = sha256Hex c5file ∧
    c5out.result.file_hash = c5out2.result.file_hash ∧
    dictFind (PyVal.entries c5out.storedMeta) "metadata" =
      some (.dict (dictSet (dictSet c5md "encrypted" (.boolV true))
        "salt" (.str (bytesHex c5dm.enc.salt)))) ∧
    dictGet (dictSet (dictSet c5md "encrypted" (.boolV true))
        "salt" (.str (bytesHex c5dm.enc.salt))) "encrypted" (.boolV false) =
      .boolV true ∧
    dictFind (dictSet (dictSet c5md "encrypted" (.boolV true))
        "salt" (.str (bytesHex c5dm.enc.salt))) "salt" =
      some (.str (bytesHex c5dm.enc.salt)) :=
  claim_C5_upload_hash_marker c5dm c5file c5md "pw" (by decide)
    c5out c5dm c5out2 c5dm rfl rfl

/-- Concrete instance salt for the C9 failing input. -/
def c9salt : List ℕ := List.replicate 16 9

/-- Concrete manager state for the C9 failing input. -/
def c9dm : ManagerState := ⟨⟨c9salt⟩⟩

/-- The 10-byte file of the upload/retrieve scenario. -/
def c9file : List ℕ := [1, 2, 3, 4, 5, 6, 7, 8, 9, 10]

/-- The ciphertext blob stored by the C9 upload. -/
def c9blob : DataEncryption.Blob :=
  .token ⟨"secret", c9salt, 100000, 32⟩ c9file

/-- The metadata object stored by the C9 upload: `encrypted=true` and the
salt live only inside the nested `metadata` entry, not at the top level. -/
def c9meta : PyVal := .dict
  [("file_hash", .str (sha256Hex c9file)),
   ("ipfs_hash", .str (ipfsAdd c9blob)),
   ("metadata", .dict [("encrypted", .boolV true),
                       ("salt", .str (bytesHex c9salt))])]

/-- The outcome of the C9 upload. -/
def c9out : UploadOutcome :=
  ⟨⟨ipfsAddJson c9meta, ipfsAdd c9blob, sha256Hex c9file⟩, c9blob, c9meta⟩

/-- Claim C9, evaluated on the failing input: uploading a 10-byte file
under password "secret" stores ciphertext with `encrypted=true` recorded in
the nested metadata entry, and retrieving **with the correct password**
still returns the ciphertext blob unmodified — no decryption happens,
because `retrieve_dataset` looks `encrypted` up at the top level of the
stored metadata object where `upload_dataset` never put it.  (Retrieval
without a password returns the same unmodified ciphertext, as the claim
says.) -/
theorem claim_C9_retrieve_bug_eval :
    upload_dataset c9dm c9file [] (some "secret") = .ok (c9out, c9dm) ∧
    retrieve_dataset c9dm c9out.storedMeta c9out.storedBlob none =
      .ok ((c9out.storedBlob, c9out.storedMeta), c9dm) ∧
    dictFind (PyVal.entries c9out.storedMeta) "metadata" =
      some (.dict [("encrypted", .boolV true),
                   ("salt", .str (bytesHex c9salt))]) ∧
    retrieve_dataset c9dm c9out.storedMeta c9out.storedBlob (some "secret") =
      .ok ((c9out.storedBlob, c9out.storedMeta), c9dm) ∧
    c9out.storedBlob ≠ DataEncryption.Blob.plain c9file :=
  ⟨rfl, rfl, rfl, rfl, by decide⟩

/-- The loaded table of the C10 validation scenario: one `id` column. -/
def c10df : DataFrame :=
  { nrows := 1
    cols := [{ name := "id", dtype := .int64, cells := [.num 1] }] }

/-- The file of the C10 validation scenario: parses as CSV to `c10df`. -/
def c10file : VFile :=
  { asCsv := .ok c10df, asJson := .error (), asParquet := .error () }

/-- The metadata of the C10 validation scenario: format csv,
required_columns ["id", "value"]. -/
def c10md : VMeta :=
  { format := some "csv", required_columns := ["id", "value"],
    column_types := [] }

/-- Claim C10: validation is a total Boolean function (loader exceptions
are converted to a false result, never propagated); it returns false when
the declared format is unsupported, when the loader raises, when the
loaded table is empty, and when a declared required column is absent — in
particular on the concrete scenario (csv, required ["id","value"], actual
columns ["id"]); a declared column-type constraint whose column is absent
from the table does not by itself cause a false result. -/
theorem claim_C10_validator :
    (validate_dataset c10file c10md = false) ∧
    (∀ file md,
        supported_formats.contains (pyLower (md.format.getD "")) = false →
        validate_dataset file md = false) ∧
    (∀ file md,
        loadFor (pyLower (md.format.getD "")) file = .error () →
        validate_dataset file md = false) ∧
    (∀ file md df,
        loadFor (pyLower (md.format.getD "")) file = .ok df →
        df.isEmptyDf = true →
        validate_dataset file md = false) ∧
    (∀ file md df,
        loadFor (pyLower (md.format.getD "")) file = .ok df →
        (md.required_columns.all (fun col => df.colNames.contains col)) = false →
        validate_dataset file md = false) ∧
    (∀ file md df,
        supported_formats.contains (pyLower (md.format.getD "")) = true →
        loadFor (pyLower (md.format.getD "")) file = .ok df →
        df.isEmptyDf = false →
        (md.required_columns.all (fun col => df.colNames.contains col)) = true →
        (∀ ct ∈ md.column_types,
          df.cols.find? (fun c => c.name == ct.1) = none) →
        validate_dataset file md = true) := by
  refine ⟨by decide, ?_, ?_, ?_, ?_, ?_⟩
  · intro file md h
    have hs : pyLower (md.format.getD "") ∉ supported_formats := by
      simpa using h
    unfold validate_dataset
    simp [hs]
  · intro file md h
    unfold validate_dataset
    by_cases hs : pyLower (md.format.getD "") ∈ supported_formats
    · simp [hs, h]
    · simp [hs]
  · intro file md df hload hempty
    unfold validate_dataset
    by_cases hs : pyLower (md.format.getD "") ∈ supported_formats
    · simp [hs, hload, hempty]
    · simp [hs]
  · intro file md df hload hreq
    unfold validate_dataset
    by_cases hs : pyLower (md.format.getD "") ∈ supported_formats
    · by_cases hempty : df.isEmptyDf = true
      · simp [hs, hload, hempty]
      · simp at hreq
        simp [hs, hload, hempty, hreq]
    · simp [hs]
  · intro file md df hs hload hempty hreq hfind
    have hs' : pyLower (md.format.getD "") ∈ supported_formats := by
      simpa using hs
    have hany : (md.column_types.any (fun ct =>
        match df.cols.find? (fun c => c.name == ct.1) with
        | some c => c.dtype.asString != ct.2
        | none => false)) = false := by
      rw [List.any_eq_false]
      intro ct hct
      rw [hfind ct hct]
      simp
    simp at hreq
    unfold validate_dataset
    simp [hs', hload, hempty, hany]
    exact hreq

/-- Metadata declaring an unsupported format, for the C10 witness. -/
def c10xmlmd : VMeta := ⟨some "xml", [], []⟩

/-- A file every loader fails on, for the C10 witness. -/
def c10errfile : VFile := ⟨.error (), .error (), .error ()⟩

/-- Metadata declaring csv with no further constraints. -/
def c10csvmd : VMeta := ⟨some "csv", [], []⟩

/-- A file parsing to an empty table, for the C10 witness. -/
def c10emptyfile : VFile := ⟨.ok ⟨0, []⟩, .error (), .error ()⟩

/-- Metadata whose only column-type constraint names a column absent from
the table, for the C10 witness. -/
def c10typemd : VMeta := ⟨some "csv", ["id"], [("value", "int64")]⟩

/-- Witness for C10 at concrete inputs for every general conjunct. -/
theorem claim_C10_witness :
    validate_dataset c10file c10xmlmd = false ∧
    validate_dataset c10errfile c10csvmd = false ∧
    validate_dataset c10emptyfile c10csvmd = false ∧
    validate_dataset c10file c10md = false ∧
    validate_dataset c10file c10typemd = true :=
  ⟨claim_C10_validator.2.1 c10file c10xmlmd (by decide),
   claim_C10_validator.2.2.1 c10errfile c10csvmd rfl,
   claim_C10_validator.2.2.2.1 c10emptyfile c10csvmd ⟨0, []⟩ rfl rfl,
   claim_C10_validator.2.2.2.2.1 c10file c10md c10df rfl (by decide),
   claim_C10_validator.2.2.2.2.2 c10file c10typemd c10df (by decide) rfl rfl
     (by decide) (by decide)⟩
